import Mathlib

/-!
Shallow embedding of `leaf_model_mnl.py` from the CMT-R repository: the
`LeafModel` facade (dispatch between two MNL fitting backends, lazy backend
instantiation, warm-start gating), the partition helper `get_sub`, and the
homogeneity predicate `are_Ys_diverse`.

Python attribute errors (reading a never-assigned attribute, calling a method
on `None`) are modelled by `Except PyError`; an attribute that `__init__` does
not set is an `Option` field holding `none`.
-/

namespace CMTR

/-- The two backend variants named in the source: the tensorflow
gradient-descent implementation and the R mnlogit Newton implementation. -/
inductive Tag where
  | tensorflow
  | rmnlogit
deriving DecidableEq, Repr

/-- A backend instance is opaque to the facade; the facade only ever stores it
and calls its methods. We record which constructor created it. -/
structure Backend where
  createdAs : Tag
deriving DecidableEq, Repr

/-- Embeds the constructor call `LeafModelTensorflow()`. -/
def LeafModelTensorflow : Backend := ⟨Tag.tensorflow⟩

/-- Embeds the constructor call `LeafModelRMNLogit()`. -/
def LeafModelRMNLogit : Backend := ⟨Tag.rmnlogit⟩

/-- Python runtime errors the facade itself can raise: reading a missing
attribute or calling a method on `None` both raise `AttributeError`. -/
inductive PyError where
  | attributeError
deriving DecidableEq, Repr

/-- The `LeafModel` facade state. `__init__` sets `self.mnl = None` and does
not set `leaf_mod_type`, so a fresh instance has `leaf_mod_type = none`
(reading it raises `AttributeError`). -/
structure LeafModel where
  mnl : Option Backend
  leaf_mod_type : Option Tag
deriving DecidableEq, Repr

/-- Embeds `LeafModel.__init__`: `self.mnl = None`, no other attribute set. -/
def LeafModel.init : LeafModel := { mnl := none, leaf_mod_type := none }

/-- What one call to `LeafModel.fit` does, apart from the delegated backend
call itself: the updated facade state, the backend instance whose `fit`
method is invoked (`self.mnl` after the lazy-instantiation step), and the
initializer forwarded to it as the `fit_init` keyword. -/
structure FitCall where
  state : LeafModel
  executed : Backend
  forwardedInit : Option Backend
deriving DecidableEq, Repr

/-- Embeds the body of `LeafModel.fit` up to (and describing) the delegated
call `self.mnl.fit(A, Y, weights, fit_init=fit_init, **kwargs)`.  Only
`len(Y)` is inspected by the facade, so `Y` is any list.  Reading
`fit_init.leaf_mod_type` when that attribute was never assigned raises
`AttributeError`. -/
def LeafModel.fit (self : LeafModel) (Y : List Int) (fit_init : Option LeafModel)
    (leaf_mod_thresh : Nat) : Except PyError FitCall :=
  if Y.length > leaf_mod_thresh then
    -- self.leaf_mod_type = "tensorflow"
    let self := { self with leaf_mod_type := some Tag.tensorflow }
    -- if fit_init is not None and fit_init.leaf_mod_type == "tensorflow":
    --   fit_init = fit_init.mnl
    -- else: fit_init = None
    match fit_init with
    | some fi =>
      match fi.leaf_mod_type with
      | none => Except.error PyError.attributeError
      | some t =>
        let fwd : Option Backend := if t = Tag.tensorflow then fi.mnl else none
        -- if self.mnl is None: self.mnl = LeafModelTensorflow()
        let self :=
          if self.mnl = none then { self with mnl := some LeafModelTensorflow } else self
        match self.mnl with
        | none => Except.error PyError.attributeError
        | some b => Except.ok ⟨self, b, fwd⟩
    | none =>
      let self :=
        if self.mnl = none then { self with mnl := some LeafModelTensorflow } else self
      match self.mnl with
      | none => Except.error PyError.attributeError
      | some b => Except.ok ⟨self, b, none⟩
  else
    -- self.leaf_mod_type = "rmnlogit"
    let self := { self with leaf_mod_type := some Tag.rmnlogit }
    match fit_init with
    | some fi =>
      match fi.leaf_mod_type with
      | none => Except.error PyError.attributeError
      | some t =>
        let fwd : Option Backend := if t = Tag.rmnlogit then fi.mnl else none
        -- if self.mnl is None: self.mnl = LeafModelRMNLogit()
        let self :=
          if self.mnl = none then { self with mnl := some LeafModelRMNLogit } else self
        match self.mnl with
        | none => Except.error PyError.attributeError
        | some b => Except.ok ⟨self, b, fwd⟩
    | none =>
      let self :=
        if self.mnl = none then { self with mnl := some LeafModelRMNLogit } else self
      match self.mnl with
      | none => Except.error PyError.attributeError
      | some b => Except.ok ⟨self, b, none⟩

/-- The dispatch rule as a standalone function of the sample size: the tag the
source assigns to `self.leaf_mod_type`. -/
def dispatchTag (lenY leaf_mod_thresh : Nat) : Tag :=
  if lenY > leaf_mod_thresh then Tag.tensorflow else Tag.rmnlogit

/-- Embeds `error = self.mnl.fit(A, Y, weights, fit_init=fit_init, **kwargs);
return(error)`: the facade returns whatever sentinel the backend returns.
`backendFit` is the (external, arbitrary) backend fitting routine; `A` and
`weights` are opaque pass-throughs. -/
def LeafModel.fitResult {α ω : Type} (self : LeafModel) (A : α) (Y : List Int)
    (weights : ω) (backendFit : Backend → α → List Int → ω → Option Backend → Nat)
    (fit_init : Option LeafModel) (leaf_mod_thresh : Nat) :
    Except PyError (LeafModel × Nat) :=
  (self.fit Y fit_init leaf_mod_thresh).map fun c =>
    (c.state, backendFit c.executed A Y weights c.forwardedInit)

/-- Embeds `LeafModel.predict`: `return(self.mnl.predict(*args, **kwargs))`.
When `self.mnl` is `None` the attribute lookup `None.predict` raises
`AttributeError`.  `predictImpl` is the external backend predict routine. -/
def LeafModel.predict {α β : Type} (self : LeafModel) (predictImpl : Backend → α → β)
    (A : α) : Except PyError β :=
  match self.mnl with
  | none => Except.error PyError.attributeError
  | some b => Except.ok (predictImpl b A)

/-- The `data_inds` argument of `get_sub`: either integer positions or (as the
docstring of the source says, when `is_boolvec=True`) a boolean vector. Numpy
dispatches on the array's dtype, so the selector itself carries the case. -/
inductive DataInds where
  | inds (l : List Nat)
  | boolvec (m : List Bool)
deriving DecidableEq, Repr

/-- Numpy integer fancy indexing `xs[l]` on a one-dimensional sequence:
the element at each listed position, in order; an out-of-range position
raises (modelled as `none`). -/
def selectInds {α : Type} (xs : List α) : List Nat → Option (List α)
  | [] => some []
  | i :: l =>
    match xs.get? i with
    | none => none
    | some v => (selectInds xs l).map (fun r => v :: r)

/-- The elements of `xs` at positions where the equally long mask holds. -/
def maskFilter {α : Type} : List α → List Bool → List α
  | x :: xs, true :: m => x :: maskFilter xs m
  | _ :: xs, false :: m => maskFilter xs m
  | _, _ => []

/-- Numpy boolean-mask indexing `xs[m]`: keeps the rows where the mask is
true; a mask whose length differs from the data raises (modelled as `none`). -/
def selectMask {α : Type} (xs : List α) (m : List Bool) : Option (List α) :=
  if m.length = xs.length then some (maskFilter xs m) else none

/-- Numpy indexing `xs[data_inds]` for either selector form. -/
def npIndex {α : Type} (xs : List α) : DataInds → Option (List α)
  | DataInds.inds l => selectInds xs l
  | DataInds.boolvec m => selectMask xs m

/-- The value `get_sub` returns: only `Y`'s rows, only `A`'s rows, or the pair
`A[data_inds], Y[data_inds]`. -/
inductive SubResult (α β : Type) where
  | onlyY (rows : List β)
  | onlyA (rows : List α)
  | both (rowsA : List α) (rowsY : List β)
deriving DecidableEq, Repr

/-- Embeds `get_sub(data_inds, A=None, Y=None, is_boolvec=False)`.  The body
tests `A is None` first, then `Y is None`; `is_boolvec` is not read by the
body (numpy dispatches on the selector's dtype).  Indexing `None` or indexing
out of range raises, modelled as `none`. -/
def get_sub {α β : Type} (data_inds : DataInds) (A : Option (List α))
    (Y : Option (List β)) (is_boolvec : Bool) : Option (SubResult α β) :=
  match A with
  | none =>
    match Y with
    | none => none
    | some y => (npIndex y data_inds).map SubResult.onlyY
  | some a =>
    match Y with
    | none => (npIndex a data_inds).map SubResult.onlyA
    | some y =>
      match npIndex a data_inds, npIndex y data_inds with
      | some ra, some ry => some (SubResult.both ra ry)
      | _, _ => none

/-- Embeds `get_sub` at the statement level: the post-call values of its
arguments are returned alongside the result.  The body contains no assignment
to any argument and no access to state outside the arguments, so the
post-call argument values are the ones passed in. -/
def get_sub_frame {α β : Type} (data_inds : DataInds) (A : Option (List α))
    (Y : Option (List β)) (is_boolvec : Bool) :
    (DataInds × Option (List α) × Option (List β) × Bool) × Option (SubResult α β) :=
  ((data_inds, A, Y, is_boolvec), get_sub data_inds A Y is_boolvec)

/-- Embeds `are_Ys_diverse(Y)`: `len(np.unique(Y)) > 1`.  `np.unique` returns
the distinct values of `Y`, so its length is the number of distinct values,
which is `Y.dedup.length`. -/
def are_Ys_diverse (Y : List Int) : Bool :=
  Y.dedup.length > 1

/-- The positions at which a boolean mask is true, in increasing order: the
integer-index selector equivalent to the mask. -/
def maskIndices : List Bool → List Nat
  | [] => []
  | true :: m => 0 :: (maskIndices m).map (fun i => i + 1)
  | false :: m => (maskIndices m).map (fun i => i + 1)

/-! ## Helper lemmas -/

/-- Closed form of `LeafModel.fit`: it errors exactly when `fit_init` is
present but carries no `leaf_mod_type` attribute; otherwise the new state
records the dispatched tag, the backend is the stored one (a fresh one of the
dispatched variant when none was stored), and the forwarded initializer is
`fit_init.mnl` exactly on tag match. -/
theorem fit_spec (self : LeafModel) (Y : List Int) (fit_init : Option LeafModel)
    (thresh : Nat) :
    self.fit Y fit_init thresh =
      match fit_init with
      | some fi =>
        match fi.leaf_mod_type with
        | none => Except.error PyError.attributeError
        | some t =>
          Except.ok ⟨⟨some (self.mnl.getD ⟨dispatchTag Y.length thresh⟩),
                      some (dispatchTag Y.length thresh)⟩,
                     self.mnl.getD ⟨dispatchTag Y.length thresh⟩,
                     if t = dispatchTag Y.length thresh then fi.mnl else none⟩
      | none =>
        Except.ok ⟨⟨some (self.mnl.getD ⟨dispatchTag Y.length thresh⟩),
                    some (dispatchTag Y.length thresh)⟩,
                   self.mnl.getD ⟨dispatchTag Y.length thresh⟩, none⟩ := by
  obtain ⟨mnl, lmt⟩ := self
  unfold LeafModel.fit dispatchTag
  by_cases hlen : Y.length > thresh <;>
    cases fit_init with
    | none =>
      cases mnl <;>
        simp [hlen, LeafModelTensorflow, LeafModelRMNLogit]
    | some fi =>
      obtain ⟨fmnl, flmt⟩ := fi
      cases flmt <;> cases mnl <;>
        simp [hlen, LeafModelTensorflow, LeafModelRMNLogit]

/-! ## Claim theorems -/

/-- C1: on every call to `LeafModel.fit` that completes, the recorded
`leaf_mod_type` is a pure function of `len(Y)`: the tensorflow
(gradient-descent) tag iff `len(Y) > leaf_mod_thresh`, the rmnlogit
(Newton's-method) tag otherwise; the boundary is strict
(`len(Y) = leaf_mod_thresh` gives rmnlogit, `leaf_mod_thresh + 1` gives
tensorflow), and the rule is re-evaluated on every call: the pre-state `self`
is arbitrary, so this holds for refits too. -/
theorem claim_C1_dispatch (self : LeafModel) (Y : List Int) (fit_init : Option LeafModel)
    (leaf_mod_thresh : Nat) (c : FitCall)
    (h : self.fit Y fit_init leaf_mod_thresh = Except.ok c) :
    c.state.leaf_mod_type = some (dispatchTag Y.length leaf_mod_thresh) ∧
    (c.state.leaf_mod_type = some Tag.tensorflow ↔ Y.length > leaf_mod_thresh) ∧
    (c.state.leaf_mod_type = some Tag.rmnlogit ↔ Y.length ≤ leaf_mod_thresh) ∧
    dispatchTag leaf_mod_thresh leaf_mod_thresh = Tag.rmnlogit ∧
    dispatchTag (leaf_mod_thresh + 1) leaf_mod_thresh = Tag.tensorflow := by
  rw [fit_spec] at h
  have hstate : c.state.leaf_mod_type = some (dispatchTag Y.length leaf_mod_thresh) := by
    cases fit_init with
    | none => cases h; rfl
    | some fi =>
      obtain ⟨fmnl, flmt⟩ := fi
      cases flmt with
      | none => cases h
      | some t => cases h; rfl
  refine ⟨hstate, ?_, ?_, ?_, ?_⟩ <;>
    simp only [hstate, dispatchTag] <;> split <;>
    simp_all

/-- Witness for C1: a fresh facade fit on two observations with threshold 1
completes and records the tensorflow tag. -/
theorem claim_C1_dispatch_witness :
    (⟨⟨some LeafModelTensorflow, some Tag.tensorflow⟩, LeafModelTensorflow,
        none⟩ : FitCall).state.leaf_mod_type = some (dispatchTag 2 1) ∧
    ((⟨⟨some LeafModelTensorflow, some Tag.tensorflow⟩, LeafModelTensorflow,
        none⟩ : FitCall).state.leaf_mod_type = some Tag.tensorflow ↔ 2 > 1) ∧
    ((⟨⟨some LeafModelTensorflow, some Tag.tensorflow⟩, LeafModelTensorflow,
        none⟩ : FitCall).state.leaf_mod_type = some Tag.rmnlogit ↔ 2 ≤ 1) ∧
    dispatchTag 1 1 = Tag.rmnlogit ∧
    dispatchTag 2 1 = Tag.tensorflow := by
  have h : LeafModel.init.fit [1, 2] none 1 =
      Except.ok ⟨⟨some LeafModelTensorflow, some Tag.tensorflow⟩,
                 LeafModelTensorflow, none⟩ := rfl
  simpa using claim_C1_dispatch LeafModel.init [1, 2] none 1 _ h

/-- C2: the backend instance is created by `fit` only when none is stored yet,
and a stored backend is never replaced: after any completing call, the stored
instance is the pre-call one when one existed (and that instance is the one
whose `fit` executes, even when the dispatched tag names the other variant),
and is a fresh instance of the dispatched variant otherwise. -/
theorem claim_C2_backend_reuse (self : LeafModel) (Y : List Int) (fit_init : Option LeafModel)
    (leaf_mod_thresh : Nat) (c : FitCall)
    (h : self.fit Y fit_init leaf_mod_thresh = Except.ok c) :
    (∀ b, self.mnl = some b → c.state.mnl = some b ∧ c.executed = b) ∧
    (self.mnl = none →
      c.state.mnl = some ⟨dispatchTag Y.length leaf_mod_thresh⟩ ∧
      c.executed = ⟨dispatchTag Y.length leaf_mod_thresh⟩) := by
  rw [fit_spec] at h
  have hmain : c.state.mnl = some (self.mnl.getD ⟨dispatchTag Y.length leaf_mod_thresh⟩) ∧
      c.executed = self.mnl.getD ⟨dispatchTag Y.length leaf_mod_thresh⟩ := by
    cases fit_init with
    | none => cases h; exact ⟨rfl, rfl⟩
    | some fi =>
      obtain ⟨fmnl, flmt⟩ := fi
      cases flmt with
      | none => cases h
      | some t => cases h; exact ⟨rfl, rfl⟩
  constructor
  · intro b hb
    rw [hb] at hmain
    simpa using hmain
  · intro hb
    rw [hb] at hmain
    simpa using hmain

/-- Witness for C2: a facade already holding a Newton's-method (rmnlogit)
backend, refit on data crossing the threshold: the tag flips to tensorflow but
the stored rmnlogit instance is kept and executes the fit. -/
theorem claim_C2_backend_reuse_witness :
    ((∀ b, (⟨some ⟨Tag.rmnlogit⟩, some Tag.rmnlogit⟩ : LeafModel).mnl = some b →
        (⟨⟨some ⟨Tag.rmnlogit⟩, some Tag.tensorflow⟩, ⟨Tag.rmnlogit⟩,
           none⟩ : FitCall).state.mnl = some b ∧
        (⟨⟨some ⟨Tag.rmnlogit⟩, some Tag.tensorflow⟩, ⟨Tag.rmnlogit⟩,
           none⟩ : FitCall).executed = b) ∧
     ((⟨some ⟨Tag.rmnlogit⟩, some Tag.rmnlogit⟩ : LeafModel).mnl = none →
        (⟨⟨some ⟨Tag.rmnlogit⟩, some Tag.tensorflow⟩, ⟨Tag.rmnlogit⟩,
           none⟩ : FitCall).state.mnl = some ⟨dispatchTag 2 1⟩ ∧
        (⟨⟨some ⟨Tag.rmnlogit⟩, some Tag.tensorflow⟩, ⟨Tag.rmnlogit⟩,
           none⟩ : FitCall).executed = ⟨dispatchTag 2 1⟩)) :=
  claim_C2_backend_reuse ⟨some ⟨Tag.rmnlogit⟩, some Tag.rmnlogit⟩ [1, 2] none 1
    ⟨⟨some ⟨Tag.rmnlogit⟩, some Tag.tensorflow⟩, ⟨Tag.rmnlogit⟩, none⟩ rfl

/-- C3: when a previously-fitted `fit_init` (one carrying a recorded tag) is
supplied and the call completes, the initializer forwarded to the backend is
`fit_init`'s inner backend object exactly when `fit_init`'s tag equals the tag
selected by the current dispatch, and `none` when the tags differ. -/
theorem claim_C3_warm_start_gate (self : LeafModel) (Y : List Int) (fi : LeafModel)
    (t : Tag) (leaf_mod_thresh : Nat) (c : FitCall)
    (ht : fi.leaf_mod_type = some t)
    (h : self.fit Y (some fi) leaf_mod_thresh = Except.ok c) :
    c.forwardedInit =
      if t = dispatchTag Y.length leaf_mod_thresh then fi.mnl else none := by
  rw [fit_spec] at h
  obtain ⟨fmnl, flmt⟩ := fi
  cases flmt with
  | none => cases h
  | some u =>
    cases h
    cases ht
    rfl

/-- Witness for C3: a `fit_init` fitted with the rmnlogit variant, supplied to
a fit whose dispatch selects tensorflow: the forwarded initializer is `none`,
not the stored rmnlogit backend. -/
theorem claim_C3_warm_start_gate_witness :
    (⟨⟨some LeafModelTensorflow, some Tag.tensorflow⟩, LeafModelTensorflow,
        none⟩ : FitCall).forwardedInit =
      if Tag.rmnlogit = dispatchTag 2 1
      then (⟨some ⟨Tag.rmnlogit⟩, some Tag.rmnlogit⟩ : LeafModel).mnl else none :=
  claim_C3_warm_start_gate LeafModel.init [1, 2]
    ⟨some ⟨Tag.rmnlogit⟩, some Tag.rmnlogit⟩ Tag.rmnlogit 1
    ⟨⟨some LeafModelTensorflow, some Tag.tensorflow⟩, LeafModelTensorflow, none⟩
    rfl rfl

/-- C4: the value `LeafModel.fit` returns is exactly the sentinel returned by
the backend's `fit`, unchanged: for every backend fitting routine
`backendFit`, whatever value it returns (success or failure), the facade
returns that value with no exception raised. -/
theorem claim_C4_sentinel_passthrough {α ω : Type} (self : LeafModel) (A : α)
    (Y : List Int) (weights : ω)
    (backendFit : Backend → α → List Int → ω → Option Backend → Nat)
    (fit_init : Option LeafModel) (leaf_mod_thresh : Nat) (c : FitCall)
    (h : self.fit Y fit_init leaf_mod_thresh = Except.ok c) :
    self.fitResult A Y weights backendFit fit_init leaf_mod_thresh =
      Except.ok (c.state, backendFit c.executed A Y weights c.forwardedInit) := by
  unfold LeafModel.fitResult
  rw [h]
  rfl

/-- Witness for C4: a fresh facade fit with a backend routine that reports
failure (sentinel 1): the facade returns 1 inside `Except.ok`, not an
exception. -/
theorem claim_C4_sentinel_passthrough_witness :
    LeafModel.init.fitResult (0 : Nat) [1, 2] (0 : Nat)
        (fun _ _ _ _ _ => 1) none 1 =
      Except.ok
        ((⟨⟨some LeafModelTensorflow, some Tag.tensorflow⟩, LeafModelTensorflow,
            none⟩ : FitCall).state,
         (fun (_ : Backend) (_ : Nat) (_ : List Int) (_ : Nat)
            (_ : Option Backend) => 1)
           (⟨⟨some LeafModelTensorflow, some Tag.tensorflow⟩, LeafModelTensorflow,
              none⟩ : FitCall).executed
           0 [1, 2] 0
           (⟨⟨some LeafModelTensorflow, some Tag.tensorflow⟩, LeafModelTensorflow,
              none⟩ : FitCall).forwardedInit) :=
  claim_C4_sentinel_passthrough LeafModel.init 0 [1, 2] 0
    (fun _ _ _ _ _ => 1) none 1
    ⟨⟨some LeafModelTensorflow, some Tag.tensorflow⟩, LeafModelTensorflow, none⟩
    rfl

/-- C5: on a freshly constructed `LeafModel` (whose `__init__` stored no
backend), `predict` raises a hard error (the `None.predict` attribute lookup)
for every backend predict routine and every input, instead of returning a
prediction; and generally `predict` raises on every facade state holding no
backend. -/
theorem claim_C5_predict_before_fit {α β : Type} (predictImpl : Backend → α → β)
    (A : α) :
    LeafModel.init.predict predictImpl A = Except.error PyError.attributeError ∧
    LeafModel.init.mnl = none ∧
    ∀ s : LeafModel, s.mnl = none →
      s.predict predictImpl A = Except.error PyError.attributeError := by
  refine ⟨rfl, rfl, ?_⟩
  intro s hs
  unfold LeafModel.predict
  rw [hs]

/-- Witness for C5 at a concrete predict routine and input. -/
theorem claim_C5_predict_before_fit_witness :
    LeafModel.init.predict (fun (_ : Backend) (a : Nat) => a) 0 =
      Except.error PyError.attributeError :=
  (claim_C5_predict_before_fit (fun (_ : Backend) (a : Nat) => a) 0).1

/-- C10: supplying as `fit_init` a `LeafModel` on which `fit` was never called
(so `leaf_mod_type` was never assigned) makes `fit` raise `AttributeError`
for every sample size and threshold, rather than treating the call as a fresh
fit: the gate reads `fit_init.leaf_mod_type` unconditionally whenever
`fit_init` is not `None`. -/
theorem claim_C10_unfitted_init_raises (self : LeafModel) (Y : List Int)
    (fi : LeafModel) (leaf_mod_thresh : Nat)
    (hfi : fi.leaf_mod_type = none) :
    self.fit Y (some fi) leaf_mod_thresh = Except.error PyError.attributeError := by
  rw [fit_spec]
  obtain ⟨fmnl, flmt⟩ := fi
  cases flmt with
  | none => rfl
  | some t => cases hfi

/-- Witness for C10: a fresh facade passed as `fit_init` makes `fit` raise. -/
theorem claim_C10_unfitted_init_raises_witness :
    LeafModel.init.fit [] (some LeafModel.init) 1000000 =
      Except.error PyError.attributeError :=
  claim_C10_unfitted_init_raises LeafModel.init [] LeafModel.init 1000000 rfl

/-- The number of distinct values of a list exceeds one exactly when the list
holds two distinct elements. -/
theorem one_lt_dedup_length_iff (Y : List Int) :
    1 < Y.dedup.length ↔ ∃ a ∈ Y, ∃ b ∈ Y, a ≠ b := by
  constructor
  · intro h
    match hd : Y.dedup with
    | [] => rw [hd] at h; simp at h
    | [a] => rw [hd] at h; simp at h
    | a :: b :: l =>
      have hnd : Y.dedup.Nodup := Y.nodup_dedup
      rw [hd] at hnd
      have ha : a ∈ Y := by
        rw [← List.mem_dedup, hd]
        simp
      have hb : b ∈ Y := by
        rw [← List.mem_dedup, hd]
        simp
      refine ⟨a, ha, b, hb, ?_⟩
      intro hab
      subst hab
      exact (List.nodup_cons.mp hnd).1 (List.mem_cons_self a l)
  · rintro ⟨a, ha, b, hb, hab⟩
    by_contra hlen
    push_neg at hlen
    have ha2 : a ∈ Y.dedup := List.mem_dedup.mpr ha
    have hb2 : b ∈ Y.dedup := List.mem_dedup.mpr hb
    match hd : Y.dedup with
    | [] => rw [hd] at ha2; simp at ha2
    | [x] =>
      rw [hd] at ha2 hb2
      simp at ha2 hb2
      exact hab (ha2.trans hb2.symm)
    | x :: y :: l => rw [hd] at hlen; simp at hlen

/-- C6: `are_Ys_diverse Y` is true exactly when `Y` holds more than one
distinct value; in particular it is false on `[1,1,1]`, true on `[1,2,1]`,
and false on the empty list. -/
theorem claim_C6_are_Ys_diverse :
    (∀ Y : List Int, are_Ys_diverse Y = true ↔ ∃ a ∈ Y, ∃ b ∈ Y, a ≠ b) ∧
    are_Ys_diverse [1, 1, 1] = false ∧
    are_Ys_diverse [1, 2, 1] = true ∧
    are_Ys_diverse [] = false := by
  refine ⟨?_, by decide, by decide, by decide⟩
  intro Y
  rw [← one_lt_dedup_length_iff]
  simp [are_Ys_diverse]

/-- C7: `get_sub` with only `A` returns exactly `A`'s selected rows and no `Y`
value; with only `Y`, exactly `Y`'s selected rows; with both, the pair of
selected rows, the same selector applied to both containers. -/
theorem claim_C7_get_sub_cases {α β : Type} (d : DataInds) (A : List α) (Y : List β)
    (b : Bool) :
    get_sub d (some A) (none : Option (List β)) b =
      (npIndex A d).map SubResult.onlyA ∧
    get_sub d (none : Option (List α)) (some Y) b =
      (npIndex Y d).map SubResult.onlyY ∧
    get_sub d (some A) (some Y) b =
      (npIndex A d).bind fun ra =>
        (npIndex Y d).map fun ry => SubResult.both ra ry := by
  refine ⟨rfl, rfl, ?_⟩
  cases hA : npIndex A d <;> cases hY : npIndex Y d <;>
    simp [get_sub, hA, hY]

/-- Prepending an element shifts integer selection by one. -/
theorem selectInds_map_succ {α : Type} (x : α) (xs : List α) (l : List Nat) :
    selectInds (x :: xs) (l.map (fun i => i + 1)) = selectInds xs l := by
  induction l with
  | nil => rfl
  | cons i l ih =>
    simp only [List.map_cons, selectInds, List.get?_cons_succ, ih]

/-- Selecting by the true positions of a mask of matching length is mask
filtering. -/
theorem selectInds_maskIndices {α : Type} (m : List Bool) (xs : List α)
    (h : m.length = xs.length) :
    selectInds xs (maskIndices m) = some (maskFilter xs m) := by
  induction m generalizing xs with
  | nil =>
    cases xs with
    | nil => rfl
    | cons x xs => simp at h
  | cons bb m ih =>
    cases xs with
    | nil => simp at h
    | cons x xs =>
      simp only [List.length_cons, Nat.succ_inj] at h
      cases bb with
      | true =>
        simp only [maskIndices, selectInds, List.get?_cons_zero,
          selectInds_map_succ, ih xs h, maskFilter, Option.map_some']
      | false =>
        simp only [maskIndices, selectInds_map_succ, ih xs h, maskFilter]

/-- C8: over data of the mask's length, `get_sub` with the integer positions
at which the mask is true and `get_sub` with the mask itself (whatever the
`is_boolvec` flags) return identical results, in each of the only-`A`,
only-`Y` and both-containers forms. -/
theorem claim_C8_inds_mask_agree {α β : Type} (m : List Bool) (A : List α)
    (Y : List β) (b1 b2 : Bool)
    (hA : m.length = A.length) (hY : m.length = Y.length) :
    get_sub (DataInds.inds (maskIndices m)) (some A) (none : Option (List β)) b1 =
      get_sub (DataInds.boolvec m) (some A) (none : Option (List β)) b2 ∧
    get_sub (DataInds.inds (maskIndices m)) (none : Option (List α)) (some Y) b1 =
      get_sub (DataInds.boolvec m) (none : Option (List α)) (some Y) b2 ∧
    get_sub (DataInds.inds (maskIndices m)) (some A) (some Y) b1 =
      get_sub (DataInds.boolvec m) (some A) (some Y) b2 := by
  have hselA : npIndex A (DataInds.inds (maskIndices m)) =
      npIndex A (DataInds.boolvec m) := by
    simp only [npIndex, selectInds_maskIndices m A hA, selectMask, hA, if_pos]
  have hselY : npIndex Y (DataInds.inds (maskIndices m)) =
      npIndex Y (DataInds.boolvec m) := by
    simp only [npIndex, selectInds_maskIndices m Y hY, selectMask, hY, if_pos]
  refine ⟨?_, ?_, ?_⟩ <;> simp only [get_sub, hselA, hselY]

/-- Witness for C8: index set `{0, 2}` and boolean mask `[true, false, true]`
over the same 3-row data select the same rows. -/
theorem claim_C8_inds_mask_agree_witness :
    get_sub (DataInds.inds (maskIndices [true, false, true]))
        (some [(10 : Int), 20, 30]) (none : Option (List Int)) false =
      get_sub (DataInds.boolvec [true, false, true])
        (some [(10 : Int), 20, 30]) (none : Option (List Int)) true ∧
    get_sub (DataInds.inds (maskIndices [true, false, true]))
        (none : Option (List Int)) (some [(1 : Int), 2, 3]) false =
      get_sub (DataInds.boolvec [true, false, true])
        (none : Option (List Int)) (some [(1 : Int), 2, 3]) true ∧
    get_sub (DataInds.inds (maskIndices [true, false, true]))
        (some [(10 : Int), 20, 30]) (some [(1 : Int), 2, 3]) false =
      get_sub (DataInds.boolvec [true, false, true])
        (some [(10 : Int), 20, 30]) (some [(1 : Int), 2, 3]) true :=
  claim_C8_inds_mask_agree [true, false, true] [10, 20, 30] [1, 2, 3]
    false true rfl rfl

/-- C9: `get_sub` is pure and stateless: at the statement level it leaves
every argument unchanged, its result is a function of its arguments alone,
and two calls on equal inputs return equal results. -/
theorem claim_C9_get_sub_pure {α β : Type} (d : DataInds) (A : Option (List α))
    (Y : Option (List β)) (b : Bool) :
    (get_sub_frame d A Y b).1 = (d, A, Y, b) ∧
    (get_sub_frame d A Y b).2 = get_sub d A Y b ∧
    ∀ d2 A2 Y2 b2, d = d2 → A = A2 → Y = Y2 → b = b2 →
      get_sub d A Y b = get_sub d2 A2 Y2 b2 := by
  refine ⟨rfl, rfl, ?_⟩
  rintro d2 A2 Y2 b2 rfl rfl rfl rfl
  rfl

/-- Witness for C9 at concrete arguments. -/
theorem claim_C9_get_sub_pure_witness :
    (get_sub_frame (DataInds.inds [0]) (some [(5 : Int)])
        (some [(7 : Int)]) false).1 =
      (DataInds.inds [0], some [(5 : Int)], some [(7 : Int)], false) ∧
    get_sub (DataInds.inds [0]) (some [(5 : Int)]) (some [(7 : Int)]) false =
      get_sub (DataInds.inds [0]) (some [(5 : Int)]) (some [(7 : Int)]) false :=
  ⟨(claim_C9_get_sub_pure (DataInds.inds [0]) (some [(5 : Int)])
      (some [(7 : Int)]) false).1,
   (claim_C9_get_sub_pure (DataInds.inds [0]) (some [(5 : Int)])
      (some [(7 : Int)]) false).2.2 (DataInds.inds [0]) (some [(5 : Int)])
      (some [(7 : Int)]) false rfl rfl rfl rfl⟩

end CMTR
